import Mathlib

/-!
Verification of the credential-lifecycle and TTL-cache core of the open115
proxy, as a shallow embedding in Lean.

The embedding covers:
* `app/core/cache.py` — `SQLiteTTLCache` (get/set/delete/clear/purge_expired),
  with the SQLite `cache` table modelled as an association list of rows and
  `time.time()` passed explicitly as a rational timestamp;
* `app/service/token_store.py` — `TokenStore` (single-row `tokens` table,
  modelled as `Option TokenRecord`);
* `app/service/open115.py` — the in-memory token state and `get_access_token`;
* `app/service/cloudflare.py` — `refresh_access_token` with its tenacity
  retry policy (transient errors retried up to 3 attempts, rejections raised
  immediately), modelled over an explicit list of attempt outcomes;
* `app/service/token_manager.py` — the advisory manager lock, bootstrap, and
  one iteration of `_refresh_cycle`.

Python `pickle` is not part of the repository; it is modelled by an
executable codec on an inductive type of picklable values (see `PyValue`).
-/

mutual

/-- Picklable structured Python values: `None`, `bool`, `int`, `str` and
(heterogeneous, arbitrarily nested) lists.  `PyList` is the mutual companion
used for list payloads. -/
inductive PyValue : Type where
  | pyNone : PyValue
  | pyBool (b : Bool) : PyValue
  | pyInt (i : Int) : PyValue
  | pyStr (s : String) : PyValue
  | pyList (xs : PyList) : PyValue

/-- Lists of picklable values, mutual with `PyValue`. -/
inductive PyList : Type where
  | nil : PyList
  | cons (v : PyValue) (vs : PyList) : PyList

end

deriving instance DecidableEq for PyValue, PyList

mutual

/-- Modelled from the spec: `pickle.dumps` — "Values are pickled before
storage to preserve types"; serialization of one value into a byte list
(tag byte followed by a payload). -/
def encodeV : PyValue → List Nat
  | .pyNone => [0]
  | .pyBool b => [1, if b then 1 else 0]
  | .pyInt i => [2, if i < 0 then 1 else 0, i.natAbs]
  | .pyStr s => 3 :: s.toList.length :: s.toList.map Char.toNat
  | .pyList xs => 4 :: encodeL xs

/-- Serialization of a list payload: element cells marked `6`, terminator `5`. -/
def encodeL : PyList → List Nat
  | .nil => [5]
  | .cons v vs => 6 :: (encodeV v ++ encodeL vs)

end

/-- Decode `n` character codes from the front of a byte list. -/
def decodeStr : Nat → List Nat → Option (List Char × List Nat)
  | 0, r => some ([], r)
  | _ + 1, [] => none
  | n + 1, c :: r =>
    match decodeStr n r with
    | some (cs, r2) => some (Char.ofNat c :: cs, r2)
    | none => none

mutual

/-- Modelled from the spec: `pickle.loads` — fuel-indexed parser of one value
from a byte list; returns the value and the remaining bytes, or `none` on a
malformed (corrupted) blob. -/
def decodeV : Nat → List Nat → Option (PyValue × List Nat)
  | 0, _ => none
  | _ + 1, [] => none
  | f + 1, t :: r =>
    if t = 0 then some (.pyNone, r)
    else if t = 1 then
      match r with
      | b :: r2 => some (.pyBool (b == 1), r2)
      | [] => none
    else if t = 2 then
      match r with
      | s :: m :: r2 => some (.pyInt (if s = 1 then -(m : Int) else (m : Int)), r2)
      | _ => none
    else if t = 3 then
      match r with
      | n :: r2 =>
        match decodeStr n r2 with
        | some (cs, r3) => some (.pyStr (String.mk cs), r3)
        | none => none
      | [] => none
    else if t = 4 then
      match decodeL f r with
      | some (xs, r2) => some (.pyList xs, r2)
      | none => none
    else none

/-- Parser for list payloads, mutual with `decodeV`. -/
def decodeL : Nat → List Nat → Option (PyList × List Nat)
  | 0, _ => none
  | _ + 1, [] => none
  | f + 1, t :: r =>
    if t = 5 then some (.nil, r)
    else if t = 6 then
      match decodeV f r with
      | some (v, r2) =>
        match decodeL f r2 with
        | some (vs, r3) => some (.cons v vs, r3)
        | none => none
      | none => none
    else none

end

mutual

/-- Fuel needed to decode an encoded value. -/
def sizeV : PyValue → Nat
  | .pyList xs => 1 + sizeL xs
  | _ => 1

/-- Fuel needed to decode an encoded list payload. -/
def sizeL : PyList → Nat
  | .nil => 1
  | .cons v vs => 1 + sizeV v + sizeL vs

end

/-- Modelled from the spec: `pickle.dumps` at blob level. -/
def pickleDumps (v : PyValue) : List Nat := encodeV v

/-- Modelled from the spec: `pickle.loads` at blob level; `none` is the
"raises on a corrupted blob" outcome. -/
def pickleLoads (blob : List Nat) : Option PyValue :=
  match decodeV blob.length blob with
  | some (v, _) => some v
  | none => none

/-! ## `app/core/cache.py` — `SQLiteTTLCache`

The SQLite `cache` table (`key TEXT PRIMARY KEY, value BLOB, expires_at REAL`)
is modelled as a list of rows; `time.time()` is an explicit `Rat` argument.
-/

/-- One row of the `cache` table. -/
structure CacheRow where
  key : String
  value : List Nat
  expires_at : Rat
deriving DecidableEq

/-- Contents of the `cache` table. -/
abbrev CacheState := List CacheRow

namespace SQLiteTTLCache

/-- `SELECT value, expires_at FROM cache WHERE key = ?` (first matching row). -/
def rowLookup (key : String) : CacheState → Option CacheRow
  | [] => none
  | r :: rest => if r.key = key then some r else rowLookup key rest

/-- `DELETE FROM cache WHERE key = ?` — `SQLiteTTLCache.delete`. -/
def delete (key : String) (st : CacheState) : CacheState :=
  st.filter fun r => decide (r.key ≠ key)

/-- `INSERT ... ON CONFLICT(key) DO UPDATE`: replace the existing row for the
key in place, else insert. -/
def upsert (row : CacheRow) : CacheState → CacheState
  | [] => [row]
  | r :: rest => if r.key = row.key then row :: rest else r :: upsert row rest

/-- `SQLiteTTLCache.get`: read `now` once, look the key up, treat an expired
row as a miss (deleting it), unpickle the blob, and treat an unpicklable blob
as a miss (deleting it).  Returns the result and the table afterwards. -/
def get (now : Rat) (key : String) (st : CacheState) : Option PyValue × CacheState :=
  match rowLookup key st with
  | none => (none, st)
  | some row =>
    if now ≥ row.expires_at then (none, delete key st)
    else
      match pickleLoads row.value with
      | some v => (some v, st)
      | none => (none, delete key st)

/-- `SQLiteTTLCache.set`: a non-positive TTL deletes any existing entry and
stores nothing; otherwise the pickled value is upserted with
`expires_at = time.time() + ttl_seconds`. -/
def set (now : Rat) (key : String) (value : PyValue) (ttl_seconds : Int)
    (st : CacheState) : CacheState :=
  if ttl_seconds ≤ 0 then delete key st
  else upsert { key := key, value := pickleDumps value,
                expires_at := now + (ttl_seconds : Rat) } st

/-- `DELETE FROM cache` — `SQLiteTTLCache.clear`. -/
def clear (_st : CacheState) : CacheState := []

/-- `SQLiteTTLCache.purge_expired`: `DELETE FROM cache WHERE expires_at <= ?`
with `? = time.time()`; returns the removed row count and the table after. -/
def purge_expired (now : Rat) (st : CacheState) : Nat × CacheState :=
  ((st.filter fun r => decide (r.expires_at ≤ now)).length,
   st.filter fun r => decide (¬ r.expires_at ≤ now))

end SQLiteTTLCache

/-! ## `app/service/token_store.py` — `TokenStore`

The single-row `tokens` table (`id = 1`) is modelled as `Option TokenRecord`.
-/

/-- `TokenRecord` dataclass. -/
structure TokenRecord where
  access_token : String
  refresh_token : String
  expires_at : Int
  updated_at : Rat
deriving DecidableEq

/-- `TokenRecord.seconds_until_expiry`: `self.expires_at - time.time()`. -/
def TokenRecord.seconds_until_expiry (r : TokenRecord) (now : Rat) : Rat :=
  (r.expires_at : Rat) - now

namespace TokenStore

/-- Contents of the single-row `tokens` table. -/
abbrev State := Option TokenRecord

/-- `TokenStore.set_tokens`: upsert of the one row `id = 1`, every field from
this call, `updated_at = time.time()`. -/
def set_tokens (access refresh : String) (expires_at : Int) (now : Rat)
    (_st : State) : State :=
  some { access_token := access, refresh_token := refresh,
         expires_at := expires_at, updated_at := now }

/-- `TokenStore.get_tokens`: the stored record, or `None`. -/
def get_tokens (st : State) : Option TokenRecord := st

/-- `TokenStore.clear`: `DELETE FROM tokens WHERE id = 1`. -/
def clear (_st : State) : State := none

end TokenStore

/-- One `set_tokens(access, refresh, expires_at)` call, with the value
`time.time()` had when the call ran. -/
structure SetCall where
  access : String
  refresh : String
  expires_at : Int
  now : Rat

/-- Apply a sequence of `set_tokens` calls in order. -/
def applySetCalls (st : TokenStore.State) (calls : List SetCall) : TokenStore.State :=
  calls.foldl
    (fun s c => TokenStore.set_tokens c.access c.refresh c.expires_at c.now s) st

/-! ## `app/service/open115.py` — in-memory token state (the module under
`src/`; this is the generation the repository's own tests do not match). -/

namespace open115

/-- The module globals `_access_token` / `_expires_at`. -/
structure TokenState where
  access_token : Option String
  expires_at : Option Int

/-- `open115.get_access_token`: raises `RuntimeError` when `_access_token` is
falsy (`None` or empty), else returns the memoized token.  It consults no
`TokenStore` and performs no expiry check. -/
def get_access_token (st : TokenState) : Except String String :=
  match st.access_token with
  | none =>
    .error "115 tokens are not initialized. Call init_tokens() at app startup."
  | some t =>
    if t = "" then
      .error "115 tokens are not initialized. Call init_tokens() at app startup."
    else .ok t

end open115

/-! ## `app/service/cloudflare.py` — `refresh_access_token` with tenacity
retry (`stop_after_attempt(3)`, retry only on `httpx.HTTPError` /
`httpx.TimeoutException`, `reraise=True`). -/

namespace cloudflare

/-- Outcome of one HTTP POST to the refresh endpoint. -/
inductive AttemptOutcome : Type where
  | transient : AttemptOutcome
  | rejected : AttemptOutcome
  | success (access_token refresh_token : String) (expires_in : Int) : AttemptOutcome
deriving DecidableEq

/-- The two ways `refresh_access_token` can raise: a transient network error
reraised after the attempt budget, or `RuntimeError` on a `state=false`
response body. -/
inductive RefreshError : Type where
  | transientError : RefreshError
  | rejectedError : RefreshError
deriving DecidableEq

/-- Python `int()` on a rational: truncation toward zero. -/
def pyIntTrunc (q : Rat) : Int := q.num / (q.den : Int)

/-- Tenacity retry driver: `remaining` attempts left, one endpoint outcome
consumed per attempt.  A `rejected` response raises immediately (the retry
predicate matches only transport errors); a transient error is retried while
attempts remain and reraised once the budget is spent.  Returns the result
and the number of HTTP calls made. -/
def runRetry (now : Rat) : Nat → List AttemptOutcome →
    Except RefreshError (String × String × Int) × Nat
  | _, [] => (.error .transientError, 0)
  | 0, _ => (.error .transientError, 0)
  | remaining + 1, o :: rest =>
    match o with
    | .success a r e => (.ok (a, r, pyIntTrunc (now + (e : Rat))), 1)
    | .rejected => (.error .rejectedError, 1)
    | .transient =>
      if remaining = 0 then (.error .transientError, 1)
      else
        let next := runRetry now remaining rest
        (next.1, next.2 + 1)

/-- `cloudflare.refresh_access_token`: at most 3 attempts. -/
def refresh_access_token (now : Rat) (outcomes : List AttemptOutcome) :
    Except RefreshError (String × String × Int) × Nat :=
  runRetry now 3 outcomes

end cloudflare

/-! ## `app/service/token_manager.py` -/

/-- `REFRESH_THRESHOLD_SECONDS` (env default `900`). -/
def REFRESH_THRESHOLD_SECONDS : Int := 900

/-- `SLEEP_MIN_SECONDS = 5`. -/
def SLEEP_MIN_SECONDS : Rat := 5

/-- `_bootstrap_tokens`: reuse a stored record whose remaining lifetime
exceeds the threshold, else fetch from Cloudflare KV (`kv` is the triple the
fetch returns), persist it and return the freshly stored record. -/
def bootstrap_tokens (st : TokenStore.State) (now : Rat)
    (kv : String × String × Int) : TokenRecord × TokenStore.State :=
  match TokenStore.get_tokens st with
  | some record =>
    if record.seconds_until_expiry now > (REFRESH_THRESHOLD_SECONDS : Rat) then
      (record, st)
    else
      let st2 := TokenStore.set_tokens kv.1 kv.2.1 kv.2.2 now st
      (⟨kv.1, kv.2.1, kv.2.2, now⟩, st2)
  | none =>
    let st2 := TokenStore.set_tokens kv.1 kv.2.1 kv.2.2 now st
    (⟨kv.1, kv.2.1, kv.2.2, now⟩, st2)

/-- Observable effects of one iteration of the `while` loop in
`_refresh_cycle`. -/
structure IterResult where
  sleepBefore : Rat
  stopped : Bool
  storeRead : Bool
  refreshAttempts : Nat
  backoff : Option Rat
  store : TokenStore.State
  record : TokenRecord
  kvPersist : Bool
deriving DecidableEq

/-- One iteration of the `_refresh_cycle` loop.  `record` is the loop-local
record, `store` the `TokenStore` contents the wake-time read returns,
`stopDuringSleep` whether the stop event fired during the timed wait,
`now0` the clock when the sleep is computed, `now1` the clock after waking,
`kv` the KV triple a bootstrap would fetch, and `outcomes` the refresh
endpoint's behaviour for this iteration. -/
def refreshIteration (record : TokenRecord) (store : TokenStore.State)
    (stopDuringSleep : Bool) (now0 now1 : Rat) (kv : String × String × Int)
    (outcomes : List cloudflare.AttemptOutcome) : IterResult :=
  let sleepD := max SLEEP_MIN_SECONDS
    ((record.expires_at : Rat) - (REFRESH_THRESHOLD_SECONDS : Rat) - now0)
  if stopDuringSleep then
    { sleepBefore := sleepD, stopped := true, storeRead := false,
      refreshAttempts := 0, backoff := none, store := store,
      record := record, kvPersist := false }
  else
    match TokenStore.get_tokens store with
    | none =>
      let boot := bootstrap_tokens store now1 kv
      { sleepBefore := sleepD, stopped := false, storeRead := true,
        refreshAttempts := 0, backoff := none, store := boot.2,
        record := boot.1, kvPersist := false }
    | some rec2 =>
      if rec2.seconds_until_expiry now1 > (REFRESH_THRESHOLD_SECONDS : Rat) then
        { sleepBefore := sleepD, stopped := false, storeRead := true,
          refreshAttempts := 0, backoff := none, store := store,
          record := rec2, kvPersist := false }
      else
        match cloudflare.refresh_access_token now1 outcomes with
        | (.error _, n) =>
          { sleepBefore := sleepD, stopped := false, storeRead := true,
            refreshAttempts := n, backoff := some SLEEP_MIN_SECONDS,
            store := store, record := rec2, kvPersist := false }
        | (.ok (a, r, e), n) =>
          { sleepBefore := sleepD, stopped := false, storeRead := true,
            refreshAttempts := n, backoff := none,
            store := TokenStore.set_tokens a r e now1 store,
            record := ⟨a, r, e, now1⟩, kvPersist := true }

/-- How `token_manager.main` ends. -/
inductive MainOutcome : Type where
  | normalReturn : MainOutcome
  | raised (msg : String) : MainOutcome
deriving DecidableEq

/-- `_acquire_manager_lock`: a non-blocking `flock`; when another instance
holds the lock, the `BlockingIOError` is turned into
`RuntimeError("manager-already-running")`. -/
def acquire_manager_lock (lockHeldByOther : Bool) : Except String Unit :=
  if lockHeldByOther then .error "manager-already-running" else .ok ()

/-- Result of `token_manager.main`: how it ends and whether the refresh
cycle (bootstrap plus refresh loop) ran. -/
structure MainResult where
  outcome : MainOutcome
  ranRefreshCycle : Bool
deriving DecidableEq

/-- `token_manager.main`: run `_refresh_cycle` under the manager lock;
a `RuntimeError` whose message is `manager-already-running` is swallowed
(plain `return`), any other error propagates. -/
def token_manager_main (lockHeldByOther : Bool) : MainResult :=
  match acquire_manager_lock lockHeldByOther with
  | .ok _ => { outcome := .normalReturn, ranRefreshCycle := true }
  | .error e =>
    if e = "manager-already-running" then
      { outcome := .normalReturn, ranRefreshCycle := false }
    else
      { outcome := .raised e, ranRefreshCycle := false }


/-- Concrete API record used by witnesses: expires at 1000, written at 0. -/
def recA : TokenRecord :=
  { access_token := "a", refresh_token := "r", expires_at := 1000,
    updated_at := 0 }

/-- Concrete record used by witnesses: expires at 9000, written at 1. -/
def recB : TokenRecord :=
  { access_token := "b", refresh_token := "s", expires_at := 9000,
    updated_at := 1 }

/-- Concrete record used by witnesses: expires at 5000, written at 0. -/
def recC : TokenRecord :=
  { access_token := "a", refresh_token := "r", expires_at := 5000,
    updated_at := 0 }

/-! ## Theorems -/

theorem sizeV_pos (v : PyValue) : 1 ≤ sizeV v := by
  cases v <;> simp [sizeV]

theorem sizeL_pos (xs : PyList) : 1 ≤ sizeL xs := by
  cases xs with
  | nil => simp [sizeL]
  | cons v vs => simp only [sizeL]; omega

theorem decodeStr_encode (cs : List Char) (rest : List Nat) :
    decodeStr cs.length (cs.map Char.toNat ++ rest) = some (cs, rest) := by
  induction cs with
  | nil => simp [decodeStr]
  | cons c cs ih => simp [decodeStr, ih, Char.ofNat_toNat]

mutual

theorem decodeV_encodeV : ∀ (v : PyValue) (rest : List Nat) (f : Nat),
    sizeV v ≤ f → decodeV f (encodeV v ++ rest) = some (v, rest)
  | v, rest, 0, h => absurd (le_trans (sizeV_pos v) h) (by omega)
  | .pyNone, rest, f + 1, _ => by simp [encodeV, decodeV]
  | .pyBool b, rest, f + 1, _ => by cases b <;> simp [encodeV, decodeV]
  | .pyInt i, rest, f + 1, _ => by
      by_cases hi : i < 0
      · have habs : ((i.natAbs : Int)) = -i :=
          Int.ofNat_natAbs_of_nonpos (le_of_lt hi)
        simp [encodeV, decodeV, hi, habs]
      · have habs : ((i.natAbs : Int)) = i :=
          Int.natAbs_of_nonneg (le_of_not_lt hi)
        simp [encodeV, decodeV, hi, habs]
  | .pyStr s, rest, f + 1, _ => by
      obtain ⟨d⟩ := s
      have h := decodeStr_encode d rest
      simp [encodeV, decodeV, String.toList, h]
  | .pyList xs, rest, f + 1, h => by
      have hx : sizeL xs ≤ f := by simp [sizeV] at h; omega
      simp [encodeV, decodeV, decodeL_encodeL xs rest f hx]

theorem decodeL_encodeL : ∀ (xs : PyList) (rest : List Nat) (f : Nat),
    sizeL xs ≤ f → decodeL f (encodeL xs ++ rest) = some (xs, rest)
  | xs, rest, 0, h => absurd (le_trans (sizeL_pos xs) h) (by omega)
  | .nil, rest, f + 1, _ => by simp [encodeL, decodeL]
  | .cons v vs, rest, f + 1, h => by
      have hv : sizeV v ≤ f := by simp [sizeL] at h; omega
      have hvs : sizeL vs ≤ f := by simp [sizeL] at h; omega
      simp only [encodeL, decodeL, List.cons_append, List.append_assoc]
      simp [decodeV_encodeV v (encodeL vs ++ rest) f hv,
        decodeL_encodeL vs rest f hvs]

end

mutual

theorem sizeV_le_length : ∀ v : PyValue, sizeV v ≤ (encodeV v).length
  | .pyNone => by simp [sizeV, encodeV]
  | .pyBool b => by simp [sizeV, encodeV]
  | .pyInt i => by simp [sizeV, encodeV]
  | .pyStr s => by simp [sizeV, encodeV]
  | .pyList xs => by
      have := sizeL_le_length xs
      simp [sizeV, encodeV]
      omega

theorem sizeL_le_length : ∀ xs : PyList, sizeL xs ≤ (encodeL xs).length
  | .nil => by simp [sizeL, encodeL]
  | .cons v vs => by
      have h1 := sizeV_le_length v
      have h2 := sizeL_le_length vs
      simp [sizeL, encodeL]
      omega

end


theorem pickleLoads_pickleDumps (v : PyValue) :
    pickleLoads (pickleDumps v) = some v := by
  have h := decodeV_encodeV v [] (encodeV v).length (sizeV_le_length v)
  simp only [List.append_nil] at h
  simp [pickleLoads, pickleDumps, h]


theorem SQLiteTTLCache.rowLookup_delete (key : String) (st : CacheState) :
    rowLookup key (delete key st) = none := by
  induction st with
  | nil => rfl
  | cons r rest ih =>
    by_cases h : r.key = key
    · simpa [delete, h] using ih
    · simpa [delete, h, rowLookup] using ih

theorem SQLiteTTLCache.rowLookup_upsert (row : CacheRow) (st : CacheState) :
    rowLookup row.key (upsert row st) = some row := by
  induction st with
  | nil => simp [upsert, rowLookup]
  | cons r rest ih =>
    by_cases h : r.key = row.key
    · simp [upsert, h, rowLookup]
    · simp [upsert, h, rowLookup, ih]

theorem SQLiteTTLCache.rowLookup_none_iff (key : String) (st : CacheState) :
    rowLookup key st = none ↔ key ∉ st.map CacheRow.key := by
  induction st with
  | nil => simp [rowLookup]
  | cons r rest ih =>
    by_cases h : r.key = key
    · simp [rowLookup, h]
    · simp [rowLookup, h, ih, Ne.symm h]

theorem SQLiteTTLCache.rowLookup_filter_none (key : String) (p : CacheRow → Bool)
    (st : CacheState) (h : rowLookup key st = none) :
    rowLookup key (st.filter p) = none := by
  induction st with
  | nil => simp [rowLookup]
  | cons r rest ih =>
    by_cases hk : r.key = key
    · simp [rowLookup, hk] at h
    · simp only [rowLookup, if_neg hk] at h
      by_cases hp : p r
      · simp [List.filter, hp, rowLookup, hk, ih h]
      · simp [List.filter, hp, ih h]

theorem SQLiteTTLCache.rowLookup_filter_nodup (key : String) (p : CacheRow → Bool)
    (st : CacheState) (row : CacheRow)
    (hnodup : (st.map CacheRow.key).Nodup)
    (h : rowLookup key st = some row) :
    rowLookup key (st.filter p) = if p row then some row else none := by
  induction st with
  | nil => simp [rowLookup] at h
  | cons r rest ih =>
    simp only [List.map_cons, List.nodup_cons] at hnodup
    by_cases hk : r.key = key
    · simp only [rowLookup, if_pos hk] at h
      have hr : r = row := by injection h
      subst hr
      have hrest : rowLookup key rest = none := by
        rw [rowLookup_none_iff]
        intro hmem
        apply hnodup.1
        rw [hk]
        exact hmem
      by_cases hp : p r
      · simp [List.filter, hp, rowLookup, hk]
      · simp [List.filter, hp, rowLookup_filter_none key p rest hrest]
    · simp only [rowLookup, if_neg hk] at h
      by_cases hp : p r
      · simp [List.filter, hp, rowLookup, hk, ih hnodup.2 h]
      · simp [List.filter, hp, ih hnodup.2 h]


/-! ## Claims -/

/-- C3: for every key, every picklable structured value and every
`ttl > 0`, `TTLCache.set(key, v, ttl)` followed by `get(key)` before `ttl`
seconds have elapsed returns a value equal to `v`: the pickle round-trip
through the blob column is faithful. -/
theorem ttl_cache_set_get_roundtrip (st : CacheState) (key : String)
    (v : PyValue) (ttl : Int) (now1 now2 : Rat)
    (httl : 0 < ttl) (hfresh : now2 - now1 < (ttl : Rat)) :
    (SQLiteTTLCache.get now2 key (SQLiteTTLCache.set now1 key v ttl st)).1
      = some v := by
  have hset : SQLiteTTLCache.set now1 key v ttl st
      = SQLiteTTLCache.upsert
          { key := key, value := pickleDumps v,
            expires_at := now1 + (ttl : Rat) } st := by
    simp [SQLiteTTLCache.set, not_le.mpr httl]
  have hlook := SQLiteTTLCache.rowLookup_upsert
    { key := key, value := pickleDumps v, expires_at := now1 + (ttl : Rat) } st
  have hlt : ¬ (now1 + (ttl : Rat) ≤ now2) := by
    intro hc
    have : (ttl : Rat) ≤ now2 - now1 := by linarith
    linarith
  rw [hset]
  simp [SQLiteTTLCache.get, hlook, ge_iff_le, hlt, pickleLoads_pickleDumps]

/-- C3 witness: a concrete set/get round-trip. -/
theorem ttl_cache_set_get_roundtrip_witness :
    (SQLiteTTLCache.get 1 "k" (SQLiteTTLCache.set 0 "k" (.pyStr "v1") 2 [])).1
      = some (.pyStr "v1") :=
  ttl_cache_set_get_roundtrip [] "k" (.pyStr "v1") 2 0 1 (by decide) (by norm_num)

/-- C4: `get(key)` is absent when the key was never set, after a delete or a
clear, and when the current time has reached the stored `expires_at`; expiry
is decided lazily inside `get` itself, with no purge needed. -/
theorem ttl_cache_get_absent_cases (st : CacheState) (key : String) (now : Rat) :
    (SQLiteTTLCache.rowLookup key st = none →
        (SQLiteTTLCache.get now key st).1 = none)
    ∧ (SQLiteTTLCache.get now key (SQLiteTTLCache.delete key st)).1 = none
    ∧ (SQLiteTTLCache.get now key (SQLiteTTLCache.clear st)).1 = none
    ∧ (∀ row : CacheRow, SQLiteTTLCache.rowLookup key st = some row →
        row.expires_at ≤ now → (SQLiteTTLCache.get now key st).1 = none) := by
  refine ⟨?_, ?_, ?_, ?_⟩
  · intro h
    simp [SQLiteTTLCache.get, h]
  · simp [SQLiteTTLCache.get, SQLiteTTLCache.rowLookup_delete]
  · simp [SQLiteTTLCache.get, SQLiteTTLCache.clear, SQLiteTTLCache.rowLookup]
  · intro row hlook hexp
    simp [SQLiteTTLCache.get, hlook, ge_iff_le, hexp]

/-- C4 witness: absent on a never-set key, after delete and clear, and on an
expired entry, at concrete inputs. -/
theorem ttl_cache_get_absent_cases_witness :
    (SQLiteTTLCache.get 7 "k"
        [{ key := "k", value := [0], expires_at := 3 }]).1 = none
    ∧ (SQLiteTTLCache.get 7 "missing" []).1 = none := by
  constructor
  · exact (ttl_cache_get_absent_cases
      [{ key := "k", value := [0], expires_at := 3 }] "k" 7).2.2.2
      { key := "k", value := [0], expires_at := 3 } (by rfl) (by norm_num)
  · exact (ttl_cache_get_absent_cases [] "missing" 7).1 (by rfl)

/-- C5: `set(key, v, ttl_seconds)` with `ttl_seconds ≤ 0` stores nothing — it
is exactly a delete of the key — so a later `get(key)` is absent. -/
theorem ttl_cache_nonpositive_ttl_no_store (st : CacheState) (key : String)
    (v : PyValue) (ttl : Int) (now1 now2 : Rat) (h : ttl ≤ 0) :
    SQLiteTTLCache.set now1 key v ttl st = SQLiteTTLCache.delete key st
    ∧ (SQLiteTTLCache.get now2 key (SQLiteTTLCache.set now1 key v ttl st)).1
        = none := by
  have hset : SQLiteTTLCache.set now1 key v ttl st
      = SQLiteTTLCache.delete key st := by
    simp [SQLiteTTLCache.set, h]
  refine ⟨hset, ?_⟩
  rw [hset]
  simp [SQLiteTTLCache.get, SQLiteTTLCache.rowLookup_delete]

/-- C5 witness: `ttl = 0` deletes an existing entry. -/
theorem ttl_cache_nonpositive_ttl_no_store_witness :
    SQLiteTTLCache.set 5 "k" (.pyInt 7) 0
        [{ key := "k", value := [0], expires_at := 100 }]
      = SQLiteTTLCache.delete "k"
        [{ key := "k", value := [0], expires_at := 100 }]
    ∧ (SQLiteTTLCache.get 6 "k" (SQLiteTTLCache.set 5 "k" (.pyInt 7) 0
        [{ key := "k", value := [0], expires_at := 100 }])).1 = none :=
  ttl_cache_nonpositive_ttl_no_store
    [{ key := "k", value := [0], expires_at := 100 }] "k" (.pyInt 7) 0 5 6
    (by decide)

/-- C8: a stored entry whose blob does not unpickle is a miss: `get` returns
absent (the exception is caught, never propagated) and deletes the corrupted
row. -/
theorem ttl_cache_corrupt_blob_is_miss (st : CacheState) (key : String)
    (now : Rat) (row : CacheRow)
    (hlook : SQLiteTTLCache.rowLookup key st = some row)
    (hlive : now < row.expires_at)
    (hbad : pickleLoads row.value = none) :
    SQLiteTTLCache.get now key st = (none, SQLiteTTLCache.delete key st) := by
  have hnot : ¬ (row.expires_at ≤ now) := not_le.mpr hlive
  simp [SQLiteTTLCache.get, hlook, ge_iff_le, hnot, hbad]

/-- C8 witness: the blob `[99]` has no decoding; `get` misses and removes the
row. -/
theorem ttl_cache_corrupt_blob_is_miss_witness :
    SQLiteTTLCache.get 1 "k" [{ key := "k", value := [99], expires_at := 10 }]
      = (none, SQLiteTTLCache.delete "k"
          [{ key := "k", value := [99], expires_at := 10 }]) :=
  ttl_cache_corrupt_blob_is_miss
    [{ key := "k", value := [99], expires_at := 10 }] "k" 1
    { key := "k", value := [99], expires_at := 10 }
    (by rfl) (by norm_num) (by rfl)

/-- C9: the `TokenStore` holds at most one record, replaced wholesale: after
any non-empty sequence of `set_tokens` calls, `get_tokens` returns the record
whose every field (access, refresh, expires_at, updated_at) comes from the
single most recent call — last write wins, never a mix of two writes. -/
theorem token_store_last_write_wins (st : TokenStore.State)
    (calls : List SetCall) (h : calls ≠ []) :
    TokenStore.get_tokens (applySetCalls st calls)
      = some { access_token := (calls.getLast h).access,
               refresh_token := (calls.getLast h).refresh,
               expires_at := (calls.getLast h).expires_at,
               updated_at := (calls.getLast h).now } := by
  induction calls using List.reverseRecOn with
  | nil => exact absurd rfl h
  | append_singleton xs c _ih =>
    simp [applySetCalls, List.foldl_append, TokenStore.set_tokens,
      TokenStore.get_tokens, List.getLast_append]

/-- C9 witness: two writes, the second wins on every field. -/
theorem token_store_last_write_wins_witness :
    TokenStore.get_tokens (applySetCalls none
      [{ access := "a1", refresh := "r1", expires_at := 100, now := 1 },
       { access := "a2", refresh := "r2", expires_at := 200, now := 2 }])
      = some { access_token := "a2", refresh_token := "r2",
               expires_at := 200, updated_at := 2 } := by
  have h := token_store_last_write_wins none
    [{ access := "a1", refresh := "r1", expires_at := 100, now := 1 },
     { access := "a2", refresh := "r2", expires_at := 200, now := 2 }]
    (List.cons_ne_nil _ _)
  simpa using h

/-- C10: `purge_expired` is invisible through `get`: at any time `t` at or
after the purge, `get(key)` returns exactly what it would have returned
without the purge; the purge removes exactly the rows with
`expires_at ≤ now` and reports their count. -/
theorem purge_expired_invisible (st : CacheState) (key : String) (now t : Rat)
    (hnodup : (st.map CacheRow.key).Nodup) (ht : now ≤ t) :
    (SQLiteTTLCache.get t key (SQLiteTTLCache.purge_expired now st).2).1
        = (SQLiteTTLCache.get t key st).1
    ∧ (SQLiteTTLCache.purge_expired now st).1
        = (st.filter fun r => decide (r.expires_at ≤ now)).length
    ∧ (SQLiteTTLCache.purge_expired now st).2
        = st.filter fun r => decide (¬ r.expires_at ≤ now) := by
  refine ⟨?_, rfl, rfl⟩
  cases hlook : SQLiteTTLCache.rowLookup key st with
  | none =>
    have h2 := SQLiteTTLCache.rowLookup_filter_none key
      (fun r => decide (¬ r.expires_at ≤ now)) st hlook
    simp only [not_le] at h2
    simp [SQLiteTTLCache.get, SQLiteTTLCache.purge_expired, hlook, h2]
  | some row =>
    have h2 := SQLiteTTLCache.rowLookup_filter_nodup key
      (fun r => decide (¬ r.expires_at ≤ now)) st row hnodup hlook
    simp only [not_le] at h2
    by_cases hexp : row.expires_at ≤ now
    · have hfalse : decide (now < row.expires_at) = false := by
        simp [not_lt.mpr hexp]
      simp only [hfalse, if_false] at h2
      have hte : row.expires_at ≤ t := le_trans hexp ht
      simp [SQLiteTTLCache.get, SQLiteTTLCache.purge_expired, hlook, h2,
        ge_iff_le, hte]
    · have htrue : decide (now < row.expires_at) = true := by
        simp [not_le.mp hexp]
      simp only [htrue, if_true] at h2
      by_cases hte : row.expires_at ≤ t
      · simp [SQLiteTTLCache.get, SQLiteTTLCache.purge_expired, hlook, h2,
          ge_iff_le, hte]
      · cases hpl : pickleLoads row.value <;>
          simp [SQLiteTTLCache.get, SQLiteTTLCache.purge_expired, hlook, h2,
            ge_iff_le, hte, hpl]

/-- C10 witness: purging at time 5 removes the expired row only and changes
no `get` result at time 6. -/
theorem purge_expired_invisible_witness :
    (SQLiteTTLCache.get 6 "a" (SQLiteTTLCache.purge_expired 5
        [{ key := "a", value := [0], expires_at := 1 },
         { key := "b", value := [0], expires_at := 10 }]).2).1
      = (SQLiteTTLCache.get 6 "a"
        [{ key := "a", value := [0], expires_at := 1 },
         { key := "b", value := [0], expires_at := 10 }]).1
    ∧ (SQLiteTTLCache.purge_expired 5
        [{ key := "a", value := [0], expires_at := 1 },
         { key := "b", value := [0], expires_at := 10 }]).1
      = (([{ key := "a", value := [0], expires_at := 1 },
           { key := "b", value := [0], expires_at := 10 }] : CacheState).filter
            fun r => decide (r.expires_at ≤ 5)).length
    ∧ (SQLiteTTLCache.purge_expired 5
        [{ key := "a", value := [0], expires_at := 1 },
         { key := "b", value := [0], expires_at := 10 }]).2
      = ([{ key := "a", value := [0], expires_at := 1 },
          { key := "b", value := [0], expires_at := 10 }] : CacheState).filter
           (fun r => decide (¬ r.expires_at ≤ 5)) :=
  purge_expired_invisible
    [{ key := "a", value := [0], expires_at := 1 },
     { key := "b", value := [0], expires_at := 10 }] "a" 5 6
    (by simp) (by norm_num)

/-- C1: the claim describes a read-through cache (memoized token served only
while its remaining lifetime exceeds the refresh threshold, otherwise a
fresh `TokenStore` read, `ConfigurationError` when never bootstrapped).  The
module under `src/app/service/open115.py` instead serves the memoized token
unconditionally: at a state whose memoized token expired at time 0, read at
time 1000 (remaining lifetime `0 - 1000`, far below the 900-second
threshold), `get_access_token` still returns the stale token — and its
signature consults no `TokenStore` at all.  The uninitialized case does
raise, as the claim says. -/
theorem open115_get_access_token_ignores_expiry :
    open115.get_access_token
        { access_token := some "stale-token", expires_at := some 0 }
      = .ok "stale-token"
    ∧ ((0 : Rat) - 1000 < (REFRESH_THRESHOLD_SECONDS : Rat))
    ∧ open115.get_access_token { access_token := none, expires_at := none }
      = .error "115 tokens are not initialized. Call init_tokens() at app startup." := by
  refine ⟨rfl, by norm_num [REFRESH_THRESHOLD_SECONDS], rfl⟩

/-- C2: when the refresh endpoint answers `state=false`, the refresh call
raises (`UpstreamAuthError` in the spec's taxonomy) after exactly one HTTP
attempt — the tenacity predicate retries only transport errors — and the
manager's cycle leaves the `TokenStore` record untouched, schedules a fixed
`SLEEP_MIN_SECONDS` backoff before the next loop turn, and persists nothing
to KV. -/
theorem refresh_rejected_no_update_fixed_backoff
    (record rec2 : TokenRecord) (now0 now1 : Rat) (kv : String × String × Int)
    (rest : List cloudflare.AttemptOutcome)
    (hdue : ¬ rec2.seconds_until_expiry now1 > (REFRESH_THRESHOLD_SECONDS : Rat)) :
    (cloudflare.refresh_access_token now1 (.rejected :: rest)).1
        = .error .rejectedError
    ∧ (cloudflare.refresh_access_token now1 (.rejected :: rest)).2 = 1
    ∧ (refreshIteration record (some rec2) false now0 now1 kv
        (.rejected :: rest)).store = some rec2
    ∧ (refreshIteration record (some rec2) false now0 now1 kv
        (.rejected :: rest)).refreshAttempts = 1
    ∧ (refreshIteration record (some rec2) false now0 now1 kv
        (.rejected :: rest)).backoff = some SLEEP_MIN_SECONDS
    ∧ (refreshIteration record (some rec2) false now0 now1 kv
        (.rejected :: rest)).kvPersist = false
    ∧ (5 : Rat) ≤ SLEEP_MIN_SECONDS := by
  refine ⟨rfl, rfl, ?_, ?_, ?_, ?_, by norm_num [SLEEP_MIN_SECONDS]⟩ <;>
    simp [refreshIteration, TokenStore.get_tokens, hdue,
      cloudflare.refresh_access_token, cloudflare.runRetry]

/-- C2 witness: a record 500 seconds from expiry (inside the 900-second
threshold) and a rejecting endpoint. -/
theorem refresh_rejected_no_update_fixed_backoff_witness :
    (cloudflare.refresh_access_token 500
        [cloudflare.AttemptOutcome.rejected]).1 = .error .rejectedError
    ∧ (cloudflare.refresh_access_token 500
        [cloudflare.AttemptOutcome.rejected]).2 = 1
    ∧ (refreshIteration recA (some recA) false 0 500 ("x", "y", 0)
        [cloudflare.AttemptOutcome.rejected]).store = some recA
    ∧ (refreshIteration recA (some recA) false 0 500 ("x", "y", 0)
        [cloudflare.AttemptOutcome.rejected]).refreshAttempts = 1
    ∧ (refreshIteration recA (some recA) false 0 500 ("x", "y", 0)
        [cloudflare.AttemptOutcome.rejected]).backoff = some SLEEP_MIN_SECONDS
    ∧ (refreshIteration recA (some recA) false 0 500 ("x", "y", 0)
        [cloudflare.AttemptOutcome.rejected]).kvPersist = false
    ∧ (5 : Rat) ≤ SLEEP_MIN_SECONDS :=
  refresh_rejected_no_update_fixed_backoff recA recA 0 500 ("x", "y", 0) []
    (by norm_num [TokenRecord.seconds_until_expiry,
      REFRESH_THRESHOLD_SECONDS, recA])

/-- C6: every iteration of the refresh loop sleeps
`max(MIN_SLEEP, expires_at − threshold − now)`; and when the wake-time
re-read of the `TokenStore` yields a record whose remaining lifetime still
exceeds the threshold, the iteration re-reads the store but makes no call to
the refresh endpoint, leaving the store as read. -/
theorem refresh_cycle_sleep_formula_and_skip :
    (∀ (record : TokenRecord) (store : TokenStore.State) (stop : Bool)
       (now0 now1 : Rat) (kv : String × String × Int)
       (outcomes : List cloudflare.AttemptOutcome),
       (refreshIteration record store stop now0 now1 kv outcomes).sleepBefore
         = max SLEEP_MIN_SECONDS
             ((record.expires_at : Rat) - (REFRESH_THRESHOLD_SECONDS : Rat) - now0))
    ∧ (∀ (record rec2 : TokenRecord) (now0 now1 : Rat)
        (kv : String × String × Int)
        (outcomes : List cloudflare.AttemptOutcome),
        rec2.seconds_until_expiry now1 > (REFRESH_THRESHOLD_SECONDS : Rat) →
        (refreshIteration record (some rec2) false now0 now1 kv
            outcomes).storeRead = true
        ∧ (refreshIteration record (some rec2) false now0 now1 kv
            outcomes).refreshAttempts = 0
        ∧ (refreshIteration record (some rec2) false now0 now1 kv
            outcomes).store = some rec2) := by
  constructor
  · intro record store stop now0 now1 kv outcomes
    cases stop with
    | true => simp [refreshIteration]
    | false =>
      cases store with
      | none => simp [refreshIteration, TokenStore.get_tokens]
      | some rec2 =>
        by_cases hf : rec2.seconds_until_expiry now1
            > (REFRESH_THRESHOLD_SECONDS : Rat)
        · simp [refreshIteration, TokenStore.get_tokens, hf]
        · rcases hr : cloudflare.refresh_access_token now1 outcomes
            with ⟨res, n⟩
          cases res with
          | error e =>
            simp [refreshIteration, TokenStore.get_tokens, hf, hr]
          | ok val =>
            rcases val with ⟨a, r, e⟩
            simp [refreshIteration, TokenStore.get_tokens, hf, hr]
  · intro record rec2 now0 now1 kv outcomes hf
    refine ⟨?_, ?_, ?_⟩ <;>
      simp [refreshIteration, TokenStore.get_tokens, hf]

/-- C6 witness: at a concrete fresh re-read record the iteration performs no
refresh call, and the sleep formula holds at concrete inputs. -/
theorem refresh_cycle_sleep_formula_and_skip_witness :
    (refreshIteration recC (some recB) false 100 200
        ("x", "y", 0) []).sleepBefore
      = max SLEEP_MIN_SECONDS ((5000 : Rat) - 900 - 100)
    ∧ (refreshIteration recC (some recB) false 100 200
        ("x", "y", 0) []).refreshAttempts = 0 := by
  have h1 := refresh_cycle_sleep_formula_and_skip.1 recC (some recB) false
    100 200 ("x", "y", 0) []
  have h2 := refresh_cycle_sleep_formula_and_skip.2 recC recB 100 200
    ("x", "y", 0) []
    (by norm_num [TokenRecord.seconds_until_expiry,
      REFRESH_THRESHOLD_SECONDS, recB])
  refine ⟨?_, h2.2.1⟩
  rw [h1]
  norm_num [REFRESH_THRESHOLD_SECONDS, recC]

/-- C7: when another instance already holds the advisory manager lock, the
lock acquisition raises `manager-already-running`, and `main` swallows
exactly that error: it returns normally and never runs the refresh cycle
(so no bootstrap and no refresh work happen). -/
theorem manager_lock_contention_silent_noop :
    acquire_manager_lock true = .error "manager-already-running"
    ∧ token_manager_main true
        = { outcome := .normalReturn, ranRefreshCycle := false }
    ∧ token_manager_main false
        = { outcome := .normalReturn, ranRefreshCycle := true } :=
  ⟨rfl, rfl, rfl⟩
